import Mathlib

/-
Verification of the upload relay in main.go: a Fiber HTTP endpoint that
forwards a multipart file to the Pinata pinning provider, plus an
interactive CLI uploader. The Go code is shallowly embedded: the provider
and the file system are oracles, HTTP bodies are strings, and JSON maps
returned by the handler are association lists.
-/

/-- Embeds `type PinataResponse struct { IpfsHash string }` from main.go. -/
structure PinataResponse where
  IpfsHash : String
deriving Repr, DecidableEq

/-- An outbound multipart POST as built by `multipart.NewWriter` together
with `writer.CreateFormFile(fieldName, filename)` and a copy of the file
bytes: one form-file field carrying a filename and the file content. -/
structure OutboundCall where
  fieldName : String
  filename : String
  content : String
deriving Repr, DecidableEq

/-- The pinning provider reply as seen by `uploadToIPFS`: the HTTP status
code of `client.Do` and the bytes read by `io.ReadAll(resp.Body)`. -/
structure ProviderResponse where
  statusCode : Nat
  body : String
deriving Repr, DecidableEq

/-- JSON insignificant whitespace, as skipped by `encoding/json`. -/
def jsonWs (c : Char) : Bool :=
  c = ' ' || c = '\t' || c = '\n' || c = '\r'

/-- Drop leading JSON whitespace. -/
def skipWs (cs : List Char) : List Char :=
  cs.dropWhile jsonWs

/-- Parse a JSON string literal (no escape sequences modelled): a quote,
then characters other than quote and backslash, then a closing quote.
Returns the decoded string and the remaining input. -/
def parseJStringBody : List Char → List Char → Option (String × List Char)
  | [], _ => none
  | c :: rest, acc =>
    if c = '"' then some (String.mk acc.reverse, rest)
    else if c = '\\' then none
    else parseJStringBody rest (c :: acc)

/-- Parse a JSON string literal starting at the opening quote. -/
def parseJString : List Char → Option (String × List Char)
  | '"' :: rest => parseJStringBody rest []
  | _ => none

/-- Parse the members of a JSON object after the opening brace (or after a
comma): a fuelled loop over `"key" : "value"` pairs. Returns the pairs in
source order (reversed accumulator discipline) and the input after the
closing brace. -/
def parseFields (fuel : Nat) (cs : List Char) (acc : List (String × String)) :
    Option (List (String × String) × List Char) :=
  match fuel with
  | 0 => none
  | fuel + 1 =>
    match parseJString (skipWs cs) with
    | none => none
    | some (key, cs1) =>
      match skipWs cs1 with
      | ':' :: cs2 =>
        match parseJString (skipWs cs2) with
        | none => none
        | some (val, cs3) =>
          match skipWs cs3 with
          | ',' :: cs4 => parseFields fuel cs4 ((key, val) :: acc)
          | '}' :: cs4 => some (((key, val) :: acc).reverse, cs4)
          | _ => none
      | _ => none

/-- Model of `json.Unmarshal` restricted to the shapes the relay meets: a
JSON object whose member values are string literals. Any other input is a
parse error, matching Unmarshal failing on malformed bodies. -/
def parseJsonObj (s : String) : Option (List (String × String)) :=
  match skipWs s.toList with
  | '{' :: cs =>
    match skipWs cs with
    | '}' :: cs1 => if skipWs cs1 = [] then some [] else none
    | _ =>
      match parseFields (cs.length + 1) cs [] with
      | some (fields, rest) => if skipWs rest = [] then some fields else none
      | none => none
  | _ => none

/-- Model of `json.Unmarshal(body, &pinataRes)`: decode the body as a JSON
object, keep the last `IpfsHash` member, default to the zero value `""`
when the field is absent, fail when the body is not a JSON object. -/
def unmarshalPinata (s : String) : Option PinataResponse :=
  (parseJsonObj s).map fun fields =>
    ⟨fields.foldl (fun acc kv => if kv.1 = "IpfsHash" then kv.2 else acc) ""⟩

/-- The error values `uploadToIPFS` can return to the handler after the
provider replied: `fmt.Errorf("pinata error: %s", string(body))` on a
non-200 status, or the `json.Unmarshal` error on a malformed body. -/
inductive UploadErr where
  | pinataError (body : String)
  | jsonError
deriving Repr, DecidableEq

/-- The `err.Error()` string the handler serialises. The exact wording of
the Unmarshal error is library-generated; it is modelled as a fixed string
that does not depend on the provider body. -/
def UploadErr.message : UploadErr → String
  | .pinataError b => "pinata error: " ++ b
  | .jsonError => "invalid JSON from provider"

/-- Embeds `uploadToIPFS(file, fileHeader)` from main.go: build one
outbound multipart call carrying field name "file", the inbound filename
and the file bytes; send it to the provider oracle; on a non-200 status
fail with the provider body wrapped in "pinata error: %s"; otherwise
unmarshal the body and produce `https://ipfs.io/ipfs/<IpfsHash>`. The
second component records the outbound calls issued (always exactly one). -/
def uploadToIPFS (content filename : String)
    (provider : OutboundCall → ProviderResponse) :
    Except UploadErr String × List OutboundCall :=
  let call : OutboundCall := ⟨"file", filename, content⟩
  let resp := provider call
  let result :=
    if resp.statusCode ≠ 200 then
      Except.error (UploadErr.pinataError resp.body)
    else
      match unmarshalPinata resp.body with
      | none => Except.error UploadErr.jsonError
      | some r => Except.ok ("https://ipfs.io/ipfs/" ++ r.IpfsHash)
  (result, [call])

/-- The file field of an inbound request as Fiber hands it to the handler:
the filename from the multipart header, the content, and whether
`fileHeader.Open()` fails. -/
structure FormFile where
  filename : String
  content : String
  openFails : Bool
deriving Repr, DecidableEq

/-- An inbound POST /upload request: `c.FormFile("file")` either yields a
file or errors (no field named file, or an unreadable field), modelled as
an `Option`. -/
structure UploadRequest where
  file : Option FormFile
deriving Repr, DecidableEq

/-- An HTTP response of the relay: status code plus the JSON object body
written by `c.JSON(fiber.Map{...})`, as an association list. -/
structure HttpResponse where
  status : Nat
  body : List (String × String)
deriving Repr, DecidableEq

/-- Embeds the POST /upload route closure registered in `startFiberApp`:
missing file field gives 400 with error "File missing" and no outbound
call; a file that fails to open gives 500 with error "File open failed"
and no outbound call; otherwise `uploadToIPFS` runs, an error becomes 500
with `err.Error()` in the error member, success becomes 200 with the URL
in the ipfs_url member. Also returns the outbound calls issued. -/
def uploadHandler (req : UploadRequest)
    (provider : OutboundCall → ProviderResponse) :
    HttpResponse × List OutboundCall :=
  match req.file with
  | none => (⟨400, [("error", "File missing")]⟩, [])
  | some f =>
    if f.openFails then
      (⟨500, [("error", "File open failed")]⟩, [])
    else
      match uploadToIPFS f.content f.filename provider with
      | (Except.error e, calls) => (⟨500, [("error", e.message)]⟩, calls)
      | (Except.ok url, calls) => (⟨200, [("ipfs_url", url)]⟩, calls)

/-- Embeds `path/filepath.Base` on Unix: empty path gives ".", trailing
slashes are stripped, everything up to the last slash is removed, and a
path of only slashes gives "/". -/
def filepathBase (path : String) : String :=
  if path = "" then "."
  else
    let rev := path.toList.reverse.dropWhile (fun c => c = '/')
    if rev = [] then "/"
    else String.mk (rev.takeWhile (fun c => c ≠ '/')).reverse

/-- Embeds `unicode.IsSpace`: the Unicode White_Space property, used by
`strings.TrimSpace`. -/
def goIsSpace (c : Char) : Bool :=
  c.val = 0x20 || (0x9 ≤ c.val && c.val ≤ 0xD) || c.val = 0x85 ||
  c.val = 0xA0 || c.val = 0x1680 || (0x2000 ≤ c.val && c.val ≤ 0x200A) ||
  c.val = 0x2028 || c.val = 0x2029 || c.val = 0x202F || c.val = 0x205F ||
  c.val = 0x3000

/-- Embeds `strings.TrimSpace`: drop White_Space characters from both
ends. -/
def goTrimSpace (s : String) : String :=
  String.mk ((s.toList.dropWhile goIsSpace).reverse.dropWhile goIsSpace).reverse

/-- What one round trip to the relay looks like from `cliUpload`:
`client.Do` fails, or `io.ReadAll` on the response body fails, or a body
is read in full. -/
inductive RelayResult where
  | netError
  | readError
  | ok (body : String)
deriving Repr, DecidableEq

/-- The observable outcome of one iteration of the `cliUpload` loop:
whether the `break` was taken, the HTTP requests issued, and the lines
printed. -/
structure IterResult where
  exits : Bool
  httpCalls : List OutboundCall
  printed : List String
deriving Repr, DecidableEq

/-- Embeds one iteration of the `for` loop in `cliUpload`: trim the line
read from stdin; on the literal "exit" print the farewell and break; try
`os.Open` on the path (the file-system oracle); on failure print an error
and continue; otherwise build the multipart body with field "file" and
`filepath.Base(input)` as filename and POST it to the relay, printing the
failure or the raw response body. Buffer-write errors of
`CreateFormFile`/`io.Copy` on the in-memory buffer are not modelled (they
cannot fail on a `bytes.Buffer`). -/
def cliUploadStep (line : String) (fs : String → Option String)
    (relay : OutboundCall → RelayResult) : IterResult :=
  let input := goTrimSpace line
  if input = "exit" then
    ⟨true, [], ["Exiting CLI uploader."]⟩
  else
    match fs input with
    | none => ⟨false, [], ["Error opening file:"]⟩
    | some content =>
      let call : OutboundCall := ⟨"file", filepathBase input, content⟩
      match relay call with
      | RelayResult.netError => ⟨false, [call], ["Upload failed:"]⟩
      | RelayResult.readError => ⟨false, [call], ["Error reading response:"]⟩
      | RelayResult.ok body => ⟨false, [call], ["Response from server: " ++ body]⟩

/-- Embeds the `cliUpload` loop over a finite stream of stdin lines: run
iterations until one breaks, collecting each observable outcome. -/
def cliUpload (lines : List String) (fs : String → Option String)
    (relay : OutboundCall → RelayResult) : List IterResult :=
  match lines with
  | [] => []
  | l :: rest =>
    let r := cliUploadStep l fs relay
    if r.exits then [r] else r :: cliUpload rest fs relay

/-- Helper: whenever the inbound file opens, the handler issues exactly the
one outbound call built from the field name "file", the inbound filename
and the file content. -/
theorem uploadHandler_calls (f : FormFile)
    (provider : OutboundCall → ProviderResponse)
    (hopen : f.openFails = false) :
    (uploadHandler ⟨some f⟩ provider).2 = [⟨"file", f.filename, f.content⟩] := by
  simp only [uploadHandler, hopen, Bool.false_eq_true, if_false]
  rcases hv : uploadToIPFS f.content f.filename provider with ⟨res, calls⟩
  have hsnd : calls = [(⟨"file", f.filename, f.content⟩ : OutboundCall)] := by
    have h2 : (uploadToIPFS f.content f.filename provider).2 =
        [(⟨"file", f.filename, f.content⟩ : OutboundCall)] := rfl
    rw [hv] at h2
    exact h2
  cases res <;> exact hsnd

/-- Helper: when the trimmed line is not the exit sentinel, the CLI
iteration never takes the break. -/
theorem cliUploadStep_not_exit (line : String) (fs : String → Option String)
    (relay : OutboundCall → RelayResult) (h : goTrimSpace line ≠ "exit") :
    (cliUploadStep line fs relay).exits = false := by
  rcases hfs : fs (goTrimSpace line) with _ | content
  · simp [cliUploadStep, h, hfs]
  · rcases hr : relay ⟨"file", filepathBase (goTrimSpace line), content⟩ with _ | _ | b <;>
      simp [cliUploadStep, h, hfs, hr]

/-- Claim C1: a valid file with a provider reply of HTTP 200 and a JSON
body decoding to IpfsHash r yields relay status 200 and body with the
single member ipfs_url bound to the fixed gateway template with r
substituted in. -/
theorem uploadHandler_success_url (f : FormFile)
    (provider : OutboundCall → ProviderResponse) (r : PinataResponse)
    (hopen : f.openFails = false)
    (hstatus : (provider ⟨"file", f.filename, f.content⟩).statusCode = 200)
    (hjson : unmarshalPinata (provider ⟨"file", f.filename, f.content⟩).body = some r) :
    (uploadHandler ⟨some f⟩ provider).1 =
      ⟨200, [("ipfs_url", "https://ipfs.io/ipfs/" ++ r.IpfsHash)]⟩ := by
  simp [uploadHandler, uploadToIPFS, hopen, hstatus, hjson]

/-- Witness for C1: the stubbed provider body from the spec. -/
theorem uploadHandler_success_url_witness :
    (uploadHandler ⟨some ⟨"a.png", "bytes", false⟩⟩
        (fun _ => ⟨200, "\x7b\"IpfsHash\":\"Qm123\"\x7d"⟩)).1 =
      ⟨200, [("ipfs_url", "https://ipfs.io/ipfs/Qm123")]⟩ :=
  uploadHandler_success_url ⟨"a.png", "bytes", false⟩ _ ⟨"Qm123"⟩ rfl rfl (by decide)

/-- Claim C2: a request without a usable file field yields 400 with body
error "File missing" and no outbound call. -/
theorem uploadHandler_missing_file (req : UploadRequest)
    (provider : OutboundCall → ProviderResponse) (h : req.file = none) :
    uploadHandler req provider = (⟨400, [("error", "File missing")]⟩, []) := by
  simp [uploadHandler, h]

/-- Witness for C2. -/
theorem uploadHandler_missing_file_witness :
    uploadHandler ⟨none⟩ (fun _ => ⟨200, ""⟩) =
      (⟨400, [("error", "File missing")]⟩, []) :=
  uploadHandler_missing_file ⟨none⟩ _ rfl

/-- Claim C3: a provider reply with a non-200 status and body B yields 500
with the error detail "pinata error: " ++ B, which contains B verbatim,
after exactly one outbound attempt. -/
theorem uploadHandler_upstream_error (f : FormFile)
    (provider : OutboundCall → ProviderResponse)
    (hopen : f.openFails = false)
    (hstatus : (provider ⟨"file", f.filename, f.content⟩).statusCode ≠ 200) :
    (uploadHandler ⟨some f⟩ provider).1 =
      ⟨500, [("error", "pinata error: " ++
        (provider ⟨"file", f.filename, f.content⟩).body)]⟩ ∧
    (uploadHandler ⟨some f⟩ provider).2 = [⟨"file", f.filename, f.content⟩] := by
  constructor <;> simp [uploadHandler, uploadToIPFS, hopen, hstatus, UploadErr.message]

/-- Witness for C3: the stubbed provider of the spec, HTTP 500 with body
boom. -/
theorem uploadHandler_upstream_error_witness :
    (uploadHandler ⟨some ⟨"a.png", "bytes", false⟩⟩ (fun _ => ⟨500, "boom"⟩)).1 =
      ⟨500, [("error", "pinata error: boom")]⟩ ∧
    (uploadHandler ⟨some ⟨"a.png", "bytes", false⟩⟩ (fun _ => ⟨500, "boom"⟩)).2 =
      [⟨"file", "a.png", "bytes"⟩] :=
  uploadHandler_upstream_error ⟨"a.png", "bytes", false⟩ _ rfl (by decide)

/-- Claim C4: a provider reply with HTTP 200 but a body that does not
unmarshal yields 500 with the fixed Unmarshal error message, independent
of the provider body. -/
theorem uploadHandler_bad_json (f : FormFile)
    (provider : OutboundCall → ProviderResponse)
    (hopen : f.openFails = false)
    (hstatus : (provider ⟨"file", f.filename, f.content⟩).statusCode = 200)
    (hjson : unmarshalPinata (provider ⟨"file", f.filename, f.content⟩).body = none) :
    (uploadHandler ⟨some f⟩ provider).1 =
      ⟨500, [("error", UploadErr.message UploadErr.jsonError)]⟩ := by
  simp [uploadHandler, uploadToIPFS, hopen, hstatus, hjson]

/-- Witness for C4: the malformed body boom. -/
theorem uploadHandler_bad_json_witness :
    (uploadHandler ⟨some ⟨"a.png", "bytes", false⟩⟩ (fun _ => ⟨200, "boom"⟩)).1 =
      ⟨500, [("error", UploadErr.message UploadErr.jsonError)]⟩ :=
  uploadHandler_bad_json ⟨"a.png", "bytes", false⟩ _ rfl rfl (by decide)

/-- Counterexample to C5 as stated: when the file cannot be opened the
status is 500 but the error message is "File open failed" with a capital
F, not "file open failed". -/
theorem uploadHandler_open_fail_cex :
    (uploadHandler ⟨some ⟨"a.png", "bytes", true⟩⟩ (fun _ => ⟨200, ""⟩)).1.status = 500 ∧
    (uploadHandler ⟨some ⟨"a.png", "bytes", true⟩⟩ (fun _ => ⟨200, ""⟩)).1.body ≠
      [("error", "file open failed")] := by
  constructor
  · rfl
  · decide

/-- Claim C5 amended: when the received file cannot be opened the relay
responds 500 with error message "File open failed" and issues no outbound
call. -/
theorem uploadHandler_open_fail (f : FormFile)
    (provider : OutboundCall → ProviderResponse) (h : f.openFails = true) :
    uploadHandler ⟨some f⟩ provider =
      (⟨500, [("error", "File open failed")]⟩, []) := by
  simp [uploadHandler, h]

/-- Witness for the amended C5. -/
theorem uploadHandler_open_fail_witness :
    uploadHandler ⟨some ⟨"a.png", "bytes", true⟩⟩ (fun _ => ⟨200, ""⟩) =
      (⟨500, [("error", "File open failed")]⟩, []) :=
  uploadHandler_open_fail ⟨"a.png", "bytes", true⟩ _ rfl

/-- Claim C6: every handler response body is a one-member JSON object,
either ipfs_url or error, never both. -/
theorem uploadHandler_two_variant (req : UploadRequest)
    (provider : OutboundCall → ProviderResponse) :
    (∃ v, (uploadHandler req provider).1.body = [("ipfs_url", v)]) ∨
    (∃ v, (uploadHandler req provider).1.body = [("error", v)]) := by
  rcases req with ⟨file⟩
  cases file with
  | none => exact Or.inr ⟨"File missing", rfl⟩
  | some f =>
    by_cases h : f.openFails
    · exact Or.inr ⟨"File open failed", by simp [uploadHandler, h]⟩
    · rcases hu : (uploadToIPFS f.content f.filename provider).1 with e | url
      · refine Or.inr ⟨e.message, ?_⟩
        simp only [uploadHandler, h, if_false, Bool.false_eq_true]
        rcases hv : uploadToIPFS f.content f.filename provider with ⟨res, calls⟩
        rw [hv] at hu
        simp only at hu
        rw [hu]
      · refine Or.inl ⟨url, ?_⟩
        simp only [uploadHandler, h, if_false, Bool.false_eq_true]
        rcases hv : uploadToIPFS f.content f.filename provider with ⟨res, calls⟩
        rw [hv] at hu
        simp only at hu
        rw [hu]

/-- Claim C7: the CLI iteration puts the base name of the trimmed path in
the outbound multipart field, and the relay puts the received filename in
its outbound multipart field to the provider, byte for byte. -/
theorem filename_roundtrip (line content : String)
    (fs : String → Option String) (relay : OutboundCall → RelayResult)
    (f : FormFile) (provider : OutboundCall → ProviderResponse)
    (hexit : goTrimSpace line ≠ "exit")
    (hfs : fs (goTrimSpace line) = some content)
    (hopen : f.openFails = false) :
    (∀ call ∈ (cliUploadStep line fs relay).httpCalls,
        call.filename = filepathBase (goTrimSpace line)) ∧
    (∀ call ∈ (uploadHandler ⟨some f⟩ provider).2,
        call.filename = f.filename) := by
  constructor
  · intro call hcall
    simp only [cliUploadStep, hexit, if_false, hfs] at hcall
    rcases hr : relay ⟨"file", filepathBase (goTrimSpace line), content⟩ with _ | _ | body <;>
      rw [hr] at hcall <;> simp at hcall <;> rw [hcall]
  · intro call hcall
    rw [uploadHandler_calls f provider hopen] at hcall
    simp only [List.mem_singleton] at hcall
    subst hcall
    rfl

/-- Witness for C7. -/
theorem filename_roundtrip_witness :
    goTrimSpace " /tmp/a.png \n" ≠ "exit" ∧
    ((∀ call ∈ (cliUploadStep " /tmp/a.png \n" (fun _ => some "bytes")
        (fun _ => RelayResult.ok "resp")).httpCalls,
        call.filename = filepathBase (goTrimSpace " /tmp/a.png \n")) ∧
     (∀ call ∈ (uploadHandler ⟨some ⟨"a.png", "bytes", false⟩⟩
        (fun _ => ⟨200, "\x7b\x7d"⟩)).2,
        call.filename = "a.png")) :=
  ⟨by decide,
   filename_roundtrip " /tmp/a.png \n" "bytes" _ _ ⟨"a.png", "bytes", false⟩ _
     (by decide) rfl rfl⟩

/-- Claim C8: the CLI loop breaks exactly when the trimmed input line is
the sentinel exit, and in that case it issues no HTTP request. -/
theorem cliUploadStep_exit (line : String) (fs : String → Option String)
    (relay : OutboundCall → RelayResult) :
    ((cliUploadStep line fs relay).exits = true ↔ goTrimSpace line = "exit") ∧
    (goTrimSpace line = "exit" →
      (cliUploadStep line fs relay).httpCalls = []) := by
  by_cases h : goTrimSpace line = "exit"
  · simp [cliUploadStep, h]
  · refine ⟨⟨fun hex => ?_, fun he => absurd he h⟩, fun he => absurd he h⟩
    rw [cliUploadStep_not_exit line fs relay h] at hex
    exact absurd hex Bool.false_ne_true

/-- Witness for C8 (no hypothesis; included to exercise the sentinel). -/
theorem cliUploadStep_exit_witness :
    ((cliUploadStep "  exit \n" (fun _ => some "bytes")
        (fun _ => RelayResult.ok "resp")).exits = true ↔
      goTrimSpace "  exit \n" = "exit") ∧
    (goTrimSpace "  exit \n" = "exit" →
      (cliUploadStep "  exit \n" (fun _ => some "bytes")
        (fun _ => RelayResult.ok "resp")).httpCalls = []) :=
  cliUploadStep_exit "  exit \n" _ _

/-- Claim C9: an unopenable path prints an error, issues no HTTP request
and does not break the loop; a network or read failure during the exchange
is likewise reported and the loop continues. -/
theorem cliUploadStep_error_continue (line : String)
    (fs : String → Option String) (relay : OutboundCall → RelayResult)
    (hexit : goTrimSpace line ≠ "exit") :
    (fs (goTrimSpace line) = none →
      cliUploadStep line fs relay = ⟨false, [], ["Error opening file:"]⟩) ∧
    (∀ content, fs (goTrimSpace line) = some content →
      (relay ⟨"file", filepathBase (goTrimSpace line), content⟩ = RelayResult.netError ∨
       relay ⟨"file", filepathBase (goTrimSpace line), content⟩ = RelayResult.readError) →
      (cliUploadStep line fs relay).exits = false ∧
      (cliUploadStep line fs relay).printed ≠ []) := by
  constructor
  · intro hfs
    simp [cliUploadStep, hexit, hfs]
  · intro content hfs hrel
    rcases hrel with hr | hr <;> simp [cliUploadStep, hexit, hfs, hr]

/-- Witness for C9: a nonexistent path. -/
theorem cliUploadStep_error_continue_witness :
    goTrimSpace "nosuch.png\n" ≠ "exit" ∧
    ((fun _ : String => (none : Option String)) (goTrimSpace "nosuch.png\n") = none →
      cliUploadStep "nosuch.png\n" (fun _ => none) (fun _ => RelayResult.netError) =
        ⟨false, [], ["Error opening file:"]⟩) :=
  ⟨by decide,
   (cliUploadStep_error_continue "nosuch.png\n" (fun _ => none)
     (fun _ => RelayResult.netError) (by decide)).1⟩

/-- Claim C10: a provider reply of HTTP 200 whose JSON object lacks
IpfsHash (or binds it to the empty string) is accepted: the relay answers
200 with the bare gateway prefix as the URL. -/
theorem uploadHandler_empty_hash (f : FormFile)
    (provider : OutboundCall → ProviderResponse)
    (hopen : f.openFails = false)
    (hstatus : (provider ⟨"file", f.filename, f.content⟩).statusCode = 200)
    (hjson : unmarshalPinata (provider ⟨"file", f.filename, f.content⟩).body =
      some ⟨""⟩) :
    (uploadHandler ⟨some f⟩ provider).1 =
      ⟨200, [("ipfs_url", "https://ipfs.io/ipfs/")]⟩ := by
  simp [uploadHandler, uploadToIPFS, hopen, hstatus, hjson]

/-- Witness for C10: a JSON object with no IpfsHash member. -/
theorem uploadHandler_empty_hash_witness :
    (uploadHandler ⟨some ⟨"a.png", "bytes", false⟩⟩
        (fun _ => ⟨200, "\x7b\"foo\":\"bar\"\x7d"⟩)).1 =
      ⟨200, [("ipfs_url", "https://ipfs.io/ipfs/")]⟩ :=
  uploadHandler_empty_hash ⟨"a.png", "bytes", false⟩ _ rfl rfl (by decide)
